import Mathlib

/-!
Verification of the buurt-check 3D neighborhood / solar exposure core.

The definitions below are a shallow embedding of the current frontend
sources (NeighborhoodViewer3D.tsx, App.tsx, SunlightRiskCard.tsx).
Machine floats are modelled as rationals; external library calls
(three.js raycasting and rendering, SunCalc astronomy, trigonometry)
are modelled as explicit function parameters of the embedding, since
they are not code of this repository.
-/

namespace BuurtCheck

/-- A 3D vector with rational components, standing in for THREE.Vector3. -/
structure Vec3 where
  x : ℚ
  y : ℚ
  z : ℚ
deriving Repr, DecidableEq

/-- One massing record as delivered to the viewer (types/api BuildingBlock):
footprint is an ordered list of planar points, heights in meters. -/
structure BuildingBlock where
  pand_id : String
  ground_height : ℚ
  building_height : ℚ
  footprint : List (ℚ × ℚ)
deriving Repr, DecidableEq

/-- Solar position as returned by the SunCalc library: azimuth and altitude
in radians, altitude positive above the horizon. -/
structure SunPos where
  azimuth : ℚ
  altitude : ℚ
deriving Repr, DecidableEq

/-- Constant SUN_DISTANCE = 300 from NeighborhoodViewer3D.tsx. -/
def SUN_DISTANCE : ℚ := 300

/-- Constant TARGET_COLOR = 0x2563eb from NeighborhoodViewer3D.tsx. -/
def TARGET_COLOR : ℕ := 0x2563eb

/-! ## Scene builder (buildings effect, NeighborhoodViewer3D.tsx)

The buildings effect picks the buildings to render, computes the minimum
ground height of that set, and extrudes one volume per rendered building
whose footprint has at least 3 points.  The current source only renders
the target building (or the first building when no target id matches):
the line reads
  const buildingsToRender = targetBuilding ? [targetBuilding] : buildings.slice(0, 1).
-/

/-- The subset of buildings the scene builder extrudes: the matched target
alone, else the first listed building. -/
def buildingsToRender (buildings : List BuildingBlock) (targetPandId : Option String) :
    List BuildingBlock :=
  let targetBuilding : Option BuildingBlock :=
    match targetPandId with
    | some tid => buildings.find? (fun b => decide (b.pand_id = tid))
    | none => none
  match targetBuilding with
  | some t => [t]
  | none => buildings.take 1

/-- Minimum ground height over a building list (Math.min over the mapped
ground heights); 0 on the empty list, which the effect never reaches
because it returns early when the building list is empty. -/
def minGround (bs : List BuildingBlock) : ℚ :=
  match bs.map (fun b => b.ground_height) with
  | [] => 0
  | g :: gs => gs.foldl min g

/-- One renderable extruded volume: the mesh produced for a building.
baseY is mesh.position.y (ground_height minus the minimum ground height of
the rendered set); depth is the extrusion depth (building_height). -/
structure Volume where
  pandId : String
  baseY : ℚ
  depth : ℚ
  footprint : List (ℚ × ℚ)
  color : ℕ
deriving Repr, DecidableEq

/-- The volume the loop body creates for one building. Every volume uses
TARGET_COLOR in the current source. -/
def mkVolume (minG : ℚ) (b : BuildingBlock) : Volume :=
  { pandId := b.pand_id
    baseY := b.ground_height - minG
    depth := b.building_height
    footprint := b.footprint
    color := TARGET_COLOR }

/-- The for-loop of the buildings effect: a footprint with fewer than 3
points is skipped (the source line is: if (fp.length < 3) continue),
every other building yields one volume. -/
def extrudeLoop (minG : ℚ) : List BuildingBlock → List Volume
  | [] => []
  | b :: rest =>
    if b.footprint.length < 3 then extrudeLoop minG rest
    else mkVolume minG b :: extrudeLoop minG rest

/-- The full volume construction of the buildings effect. -/
def buildVolumes (buildings : List BuildingBlock) (targetPandId : Option String) :
    List Volume :=
  let toRender := buildingsToRender buildings targetPandId
  extrudeLoop (minGround toRender) toRender

/-! ## Risk classification (SunlightRiskCard.tsx) -/

/-- The three risk levels rendered by the sunlight risk card. -/
inductive RiskLevel where
  | low
  | medium
  | high
deriving Repr, DecidableEq

/-- The sunlight analysis payload (types/api SunlightResult). -/
structure SunlightResult where
  winter : ℚ
  equinox : ℚ
  summer : ℚ
  annualAverage : ℚ
  analysisYear : ℕ
deriving Repr, DecidableEq

/-- getRiskLevel from SunlightRiskCard.tsx: winter hours below 2 give high,
up to 4 give medium, above 4 give low. -/
def getRiskLevel (winterHours : ℚ) : RiskLevel :=
  if winterHours < 2 then .high
  else if winterHours ≤ 4 then .medium
  else .low

/-- The risk level the card displays for a SunlightResult: the card calls
getRiskLevel(sunlight.winter), so only the winter field matters. -/
def displayedRisk (s : SunlightResult) : RiskLevel :=
  getRiskLevel s.winter

/-! ## Solar model and obstruction ray-cast (computeSunlight)

SunCalc and the three.js raycaster are external libraries, so they enter
the embedding as parameters: a SolarModel gives the solar position at the
30-minute sample of each whole hour of the representative date of each
month (the 21st), together with the truncated sunrise and sunset hours
of that date; a MeshObj carries the geometric ray-intersection distances
of one scene mesh as a function of the ray origin and direction. -/

/-- The astronomy oracle for the 12 representative dates: month is the
0-based month index of the date (the 21st of that month), hour the local
whole hour sampled at minute 30. -/
structure SolarModel where
  position : ℕ → ℕ → SunPos
  sunriseHour : ℕ → ℕ
  sunsetHour : ℕ → ℕ

/-- One mesh in ctx.buildingMeshes (or the ground plane): its pand id,
its isGround flag, and the distances along a ray at which the ray meets
the mesh, as a function of ray origin and direction. -/
structure MeshObj where
  pandId : String
  isGround : Bool
  hitDistances : Vec3 → Vec3 → List ℚ

/-- One intersection record returned by the raycaster. -/
structure Hit where
  pandId : String
  isGround : Bool
  distance : ℚ
deriving Repr, DecidableEq

/-- The far bound set on the raycaster: raycaster.far = SUN_DISTANCE * 2. -/
def raycastFar : ℚ := SUN_DISTANCE * 2

/-- raycaster.intersectObjects over the given meshes: every geometric
intersection whose distance lies between the near bound 0 and far. -/
def intersectObjects (meshes : List MeshObj) (origin dir : Vec3) (far : ℚ) : List Hit :=
  meshes.flatMap (fun m =>
    ((m.hitDistances origin dir).filter
        (fun d => decide (0 ≤ d) && decide (d ≤ far))).map
      (fun d => { pandId := m.pandId, isGround := m.isGround, distance := d }))

/-- The blocked test of computeSunlight: some returned intersection comes
from an object whose pand id differs from the target and which is not the
ground plane. -/
def sampleBlocked (meshes : List MeshObj) (targetPandId : String)
    (origin dir : Vec3) : Bool :=
  (intersectObjects meshes origin dir raycastFar).any
    (fun hit => decide (hit.pandId ≠ targetPandId) && !hit.isGround)

/-- The environment of computeSunlight: the astronomy oracle plus the
normalized sun-direction vector derived from (azimuth, altitude) by the
fixed trigonometric axis convention of the source. -/
structure SunlightEnv where
  sm : SolarModel
  sunDir : SunPos → Vec3

/-- The fixed ray origin of the analysis: half a meter above the target
roof, over the centroid of the target footprint.  The minimum ground
height here is taken over the full building list, as in the source. -/
def roofCenter (buildings : List BuildingBlock) (target : BuildingBlock) : Vec3 :=
  let fp := target.footprint
  let n : ℚ := fp.length
  let cx := (fp.map Prod.fst).sum / n
  let cy := (fp.map Prod.snd).sum / n
  let targetTop := target.ground_height - minGround buildings + target.building_height
  ⟨cx, targetTop + 1/2, cy⟩

/-- The sampled whole hours of one representative date: every h with
sunriseHour ≤ h ≤ sunsetHour. -/
def hourRange (sm : SolarModel) (month : ℕ) : List ℕ :=
  List.range' (sm.sunriseHour month) (sm.sunsetHour month + 1 - sm.sunriseHour month)

/-- The inner hour loop of computeSunlight for one representative date:
a sample with altitude at most 0 is skipped, a blocked sample counts
nothing, every other sample counts one sunlit hour. -/
def monthSunlitHours (env : SunlightEnv) (meshes : List MeshObj)
    (targetPandId : String) (origin : Vec3) (month : ℕ) : ℕ :=
  (hourRange env.sm month).foldl
    (fun acc h =>
      if (env.sm.position month h).altitude ≤ 0 then acc
      else if sampleBlocked meshes targetPandId origin
          (env.sunDir (env.sm.position month h)) then acc
      else acc + 1) 0

/-- The whole computeSunlight callback as a value: none models the early
returns (empty building list, no target id, target id not found in the
list), some carries the payload handed to onSunlightAnalysis.  The source
checks the empty list and missing target id in one combined guard before
looking the target up. -/
def computeSunlightResult (env : SunlightEnv) (meshes : List MeshObj)
    (buildings : List BuildingBlock) (targetPandId : Option String)
    (year : ℕ) : Option SunlightResult :=
  match targetPandId with
  | none => none
  | some tid =>
    if buildings.isEmpty then none
    else
      match buildings.find? (fun b => decide (b.pand_id = tid)) with
      | none => none
      | some target =>
        let origin := roofCenter buildings target
        let monthlyHours :=
          (List.range 12).map (fun m => monthSunlitHours env meshes tid origin m)
        let total : ℚ := (monthlyHours.map (fun nh => (nh : ℚ))).sum
        some
          { winter := (monthlyHours.getD 11 0 : ℚ)
            equinox := (monthlyHours.getD 2 0 : ℚ)
            summer := (monthlyHours.getD 5 0 : ℚ)
            annualAverage := ((round (total / 12 * 10) : ℤ) : ℚ) / 10
            analysisYear := year }

/-! ## Render state, sun position effect, snapshot capturer -/

/-- The shared render state the effects mutate: camera position, the point
the camera looks at, the directional light position and its intensity. -/
structure SceneState where
  cameraPos : Vec3
  cameraLook : Vec3
  lightPos : Vec3
  lightIntensity : ℚ
deriving Repr, DecidableEq

/-- The sun position effect for one computed solar position: altitude at
most 0 zeroes the intensity and leaves the light position alone; a
positive altitude sets intensity 0.8 and places the light along the sun
vector.  sunVec stands for the trigonometric placement at SUN_DISTANCE. -/
def updateSunPosition (sunVec : SunPos → Vec3) (pos : SunPos) (s : SceneState) :
    SceneState :=
  if pos.altitude ≤ 0 then { s with lightIntensity := 0 }
  else { s with lightIntensity := 4/5, lightPos := sunVec pos }

/-- One captured snapshot: label, hour, and an abstract raster id produced
by the render oracle. -/
structure Snapshot where
  label : String
  hour : ℕ
  raster : ℕ
deriving Repr, DecidableEq

/-- The environment of the snapshot effect: solar position per snapshot
hour on the winter solstice, the trigonometric sun placement, and the
renderer (render followed by toDataURL) as an oracle on render state. -/
structure SnapshotEnv where
  getPosition : ℕ → SunPos
  sunVector : SunPos → Vec3
  render : SceneState → ℕ

/-- The three fixed snapshot configurations of the source. -/
def snapshotConfigs : List (ℕ × String) :=
  [(9, "morning"), (12, "noon"), (17, "evening")]

/-- One iteration of the capture loop: reposition the light (or zero the
intensity when the sun is down), render synchronously, capture. -/
def captureStep (env : SnapshotEnv) (s : SceneState) (c : ℕ × String) :
    SceneState × Snapshot :=
  let pos := env.getPosition c.1
  let s1 :=
    if 0 < pos.altitude then
      { s with lightPos := env.sunVector pos, lightIntensity := 4/5 }
    else { s with lightIntensity := 0 }
  (s1, { label := c.2, hour := c.1, raster := env.render s1 })

/-- The capture loop over the snapshot configurations. -/
def captureLoop (env : SnapshotEnv) : SceneState → List (ℕ × String) →
    SceneState × List Snapshot
  | s, [] => (s, [])
  | s, c :: rest =>
    let step := captureStep env s c
    let restRes := captureLoop env step.1 rest
    (restRes.1, step.2 :: restRes.2)

/-- The whole snapshot-capture cycle: save camera position, light position
and light intensity, move the camera to the fixed top-down pose, run the
capture loop, then restore all three saved values (the camera is aimed
back at the origin). -/
def snapshotEffect (env : SnapshotEnv) (s : SceneState) :
    SceneState × List Snapshot :=
  let savedCameraPos := s.cameraPos
  let savedSunPos := s.lightPos
  let savedSunIntensity := s.lightIntensity
  let s1 : SceneState := { s with cameraPos := ⟨0, 200, 1/10⟩, cameraLook := ⟨0, 0, 0⟩ }
  let res := captureLoop env s1 snapshotConfigs
  ({ res.1 with
      cameraPos := savedCameraPos
      cameraLook := ⟨0, 0, 0⟩
      lightPos := savedSunPos
      lightIntensity := savedSunIntensity }, res.2)

/-! ## Host application state (App.tsx) -/

/-- The neighborhood-3D response shape the host consumes. -/
structure N3D where
  buildings : List BuildingBlock
  target_pand_id : Option String
deriving Repr, DecidableEq

/-- The slice of App state touched by address selection and by the
asynchronous completions; payloads irrelevant to the claims are abstract
numeric ids. -/
structure AppState where
  currentRequestId : ℕ
  neighborhood3D : Option N3D
  neighborhood3DLoading : Bool
  riskCards : Option ℕ
  riskLoading : Bool
  riskError : Bool
  sunlight : Option SunlightResult
  sunlightUnavailable : Bool
  shadowSnapshots : Option ℕ
  loading : Bool
  errorShown : Bool
deriving Repr, DecidableEq

/-- The synchronous prefix of handleAddressSelect: clear every per-address
slot and bump the monotone request counter. -/
def selectAddress (s : AppState) : AppState :=
  { s with
      loading := true
      errorShown := false
      neighborhood3D := none
      neighborhood3DLoading := false
      riskCards := none
      riskLoading := false
      riskError := false
      sunlight := none
      sunlightUnavailable := false
      shadowSnapshots := none
      currentRequestId := s.currentRequestId + 1 }

/-- The request id captured by a selection started in state s: the source
captures the incremented counter. -/
def capturedId (s : AppState) : ℕ :=
  s.currentRequestId + 1

/-- Completion of the neighborhood-3D fetch: guarded by the sequence
number, it stores the result and surfaces sunlight unavailability when
the response has no buildings or no target id. -/
def onNeighborhood3DSuccess (captured : ℕ) (n3d : N3D) (s : AppState) : AppState :=
  if s.currentRequestId = captured then
    { s with
        neighborhood3D := some n3d
        neighborhood3DLoading := false
        sunlightUnavailable :=
          !(decide (0 < n3d.buildings.length) && n3d.target_pand_id.isSome) }
  else s

/-- Failure of the neighborhood-3D fetch: guarded, surfaces sunlight as
unavailable. -/
def onNeighborhood3DFailure (captured : ℕ) (s : AppState) : AppState :=
  if s.currentRequestId = captured then
    { s with neighborhood3DLoading := false, sunlightUnavailable := true }
  else s

/-- Completion of the risk-cards fetch: guarded by the same counter. -/
def onRiskCardsSuccess (captured : ℕ) (risks : ℕ) (s : AppState) : AppState :=
  if s.currentRequestId = captured then
    { s with riskCards := some risks, riskLoading := false }
  else s

/-- Failure of the risk-cards fetch: guarded by the same counter. -/
def onRiskCardsFailure (captured : ℕ) (s : AppState) : AppState :=
  if s.currentRequestId = captured then
    { s with riskError := true, riskLoading := false }
  else s

/-! ## Viewer effect scheduling (idempotence guards)

React runs an effect when its dependency tuple differs from the last
rendered one; the viewer additionally guards the analyzer and the
capturer with the sunlightComputed and snapshotsCaptured refs, reset by
the buildings effect on every fresh massing arrival.  Props carry the
reference identity of the buildings array and of the center coordinate
as numeric tokens, because React compares dependencies by reference. -/

/-- The viewer props relevant to the guarded effects. -/
structure ViewerProps where
  buildings : List BuildingBlock
  buildingsRef : ℕ
  targetPandId : Option String
  centerRef : ℕ
deriving Repr, DecidableEq

/-- The viewer bookkeeping state: the two one-shot flags, the recorded
dependency tuples of the three effects, and run counters for the analyzer
and the capturer. -/
structure ViewerState where
  sunlightComputed : Bool
  snapshotsCaptured : Bool
  buildingsEffectDeps : Option (ℕ × Option String)
  sunlightEffectDeps : Option (ℕ × Option String × ℕ)
  snapshotEffectDeps : Option (ℕ × ℕ)
  analyzerRuns : ℕ
  captureRuns : ℕ
deriving Repr, DecidableEq

/-- The buildings effect: on a changed dependency tuple it rebuilds the
volumes and, when the building list is nonempty, resets both one-shot
flags (the effect returns before the reset when the list is empty). -/
def buildingsEffectStep (p : ViewerProps) (s : ViewerState) : ViewerState :=
  if s.buildingsEffectDeps = some (p.buildingsRef, p.targetPandId) then s
  else
    let s1 := { s with buildingsEffectDeps := some (p.buildingsRef, p.targetPandId) }
    if p.buildings.isEmpty then s1
    else { s1 with sunlightComputed := false, snapshotsCaptured := false }

/-- A call of the computeSunlight callback: it returns early when the
building list is empty or no target id is set, then consults and sets the
sunlightComputed ref; a run is counted when the guard passes. -/
def computeSunlightCall (p : ViewerProps) (s : ViewerState) : ViewerState :=
  if p.buildings.isEmpty ∨ p.targetPandId = none then s
  else if s.sunlightComputed then s
  else { s with sunlightComputed := true, analyzerRuns := s.analyzerRuns + 1 }

/-- The effect that schedules computeSunlight: on a changed dependency
tuple it invokes the callback when buildings and a target id exist. -/
def sunlightTriggerStep (p : ViewerProps) (s : ViewerState) : ViewerState :=
  if s.sunlightEffectDeps = some (p.buildingsRef, p.targetPandId, p.centerRef) then s
  else
    let s1 := { s with sunlightEffectDeps := some (p.buildingsRef, p.targetPandId, p.centerRef) }
    if p.buildings.isEmpty then s1
    else if p.targetPandId = none then s1
    else computeSunlightCall p s1

/-- The snapshot effect: on a changed dependency tuple it returns early
when the building list is empty or snapshots were already captured,
otherwise it captures once and sets the snapshotsCaptured ref. -/
def snapshotCaptureStep (p : ViewerProps) (s : ViewerState) : ViewerState :=
  if s.snapshotEffectDeps = some (p.buildingsRef, p.centerRef) then s
  else
    let s1 := { s with snapshotEffectDeps := some (p.buildingsRef, p.centerRef) }
    if p.buildings.isEmpty ∨ s1.snapshotsCaptured then s1
    else { s1 with snapshotsCaptured := true, captureRuns := s1.captureRuns + 1 }

/-- One committed render of the viewer with props p: the three effects in
source order. -/
def renderStep (p : ViewerProps) (s : ViewerState) : ViewerState :=
  snapshotCaptureStep p (sunlightTriggerStep p (buildingsEffectStep p s))

/-! ## Claim-side predicate

specObstructed spells the obstruction condition in the words of the
specification (compare with the sampleBlocked test of the source): the
ray cast toward the sun meets some building volume other than the target
(ground plane excluded) before the far bound of the ray. -/

/-- The obstruction condition as the specification words it. -/
def specObstructed (meshes : List MeshObj) (origin dir : Vec3)
    (targetPandId : String) : Prop :=
  ∃ hit ∈ intersectObjects meshes origin dir raycastFar,
    hit.pandId ≠ targetPandId ∧ hit.isGround = false

instance specObstructedDecidable (meshes : List MeshObj) (origin dir : Vec3)
    (targetPandId : String) : Decidable (specObstructed meshes origin dir targetPandId) :=
  inferInstanceAs (Decidable (∃ hit ∈ intersectObjects meshes origin dir raycastFar,
    hit.pandId ≠ targetPandId ∧ hit.isGround = false))

/-! ## Concrete inputs used by counterexamples and witnesses -/

/-- A valid triangular footprint. -/
def fpTri : List (ℚ × ℚ) := [(0, 0), (4, 0), (0, 4)]

/-- A second valid triangular footprint. -/
def fpTri2 : List (ℚ × ℚ) := [(10, 0), (14, 0), (10, 4)]

/-- A target building with nonzero ground height. -/
def bA : BuildingBlock := ⟨"A", 2, 10, fpTri⟩

/-- A neighbor building. -/
def bB : BuildingBlock := ⟨"B", 0, 5, fpTri2⟩

/-- A two-building massing set. -/
def exSet : List BuildingBlock := [bA, bB]

/-- A building whose id differs from the announced target id. -/
def bX : BuildingBlock := ⟨"X", 0, 10, fpTri⟩

/-- A response whose target id is absent from its building list. -/
def badN3D : N3D := ⟨[bX], some "T"⟩

/-- A response with an empty building list. -/
def emptyN3D : N3D := ⟨[], some "T"⟩

/-- A concrete app state whose current request id is 1. -/
def app1 : AppState :=
  ⟨1, none, true, none, false, false, none, false, none, true, false⟩

/-- A solar model whose 8-hour sample sits below the horizon while the
sunrise hour is 8: exactly what happens when true sunrise falls after the
30-minute sample of its truncated hour. -/
def cexSolar : SolarModel :=
  ⟨fun _ h => ⟨0, if h = 8 then -1 else 1⟩, fun _ => 8, fun _ => 16⟩

/-- A solar model with every sample above the horizon between hours 8
and 16. -/
def upSolar : SolarModel :=
  ⟨fun _ _ => ⟨0, 1⟩, fun _ => 8, fun _ => 16⟩

/-- A constant direction standing in for the trigonometric sun vector. -/
def constDir : SunPos → Vec3 := fun _ => ⟨0, 1, 0⟩

/-- Sunlight environment built from cexSolar. -/
def cexEnv : SunlightEnv := ⟨cexSolar, constDir⟩

/-- Sunlight environment built from upSolar. -/
def upEnv : SunlightEnv := ⟨upSolar, constDir⟩

/-- A sunlight result with 3 winter hours. -/
def exSunA : SunlightResult := ⟨3, 5, 8, 5, 2026⟩

/-- A second sunlight result with the same winter hours but different
equinox, summer, annual average and year. -/
def exSunB : SunlightResult := ⟨3, 6, 9, 2, 2025⟩

/-- A concrete render state. -/
def exScene : SceneState := ⟨⟨1, 2, 3⟩, ⟨0, 0, 0⟩, ⟨4, 5, 6⟩, 4/5⟩

/-! ## Helper lemmas -/

/-- The hour loop of the analyzer counts exactly the hours whose sample
has positive altitude and is not blocked. -/
theorem sunlit_foldl_count (env : SunlightEnv) (meshes : List MeshObj)
    (targetPandId : String) (origin : Vec3) (month : ℕ) (l : List ℕ) (acc : ℕ) :
    l.foldl
      (fun acc h =>
        if (env.sm.position month h).altitude ≤ 0 then acc
        else if sampleBlocked meshes targetPandId origin
            (env.sunDir (env.sm.position month h)) then acc
        else acc + 1) acc
      = acc + (l.filter (fun h =>
          decide (0 < (env.sm.position month h).altitude) &&
          !sampleBlocked meshes targetPandId origin
            (env.sunDir (env.sm.position month h)))).length := by
  induction l generalizing acc with
  | nil => simp
  | cons x t ih =>
    simp only [List.foldl_cons, List.filter_cons]
    by_cases ha : (env.sm.position month x).altitude ≤ 0
    · have hd : decide (0 < (env.sm.position month x).altitude) = false := by
        simp [not_lt.mpr ha]
      simp [ha, hd, ih]
    · have hd : decide (0 < (env.sm.position month x).altitude) = true := by
        simp [lt_of_not_le ha]
      cases hb : sampleBlocked meshes targetPandId origin
          (env.sunDir (env.sm.position month x)) with
      | true => simp [ha, hd, hb, ih]
      | false =>
        simp [ha, hd, hb, ih]
        omega

/-- The source blocked test agrees with the specification wording. -/
theorem sampleBlocked_iff (meshes : List MeshObj) (targetPandId : String)
    (origin dir : Vec3) :
    sampleBlocked meshes targetPandId origin dir = true ↔
      specObstructed meshes origin dir targetPandId := by
  simp [sampleBlocked, specObstructed, List.any_eq_true, Bool.and_eq_true,
    decide_eq_true_eq, Bool.not_eq_true']

/-- Boolean form of the agreement between the blocked test and the
specification wording. -/
theorem sampleBlocked_eq_decide (meshes : List MeshObj) (targetPandId : String)
    (origin dir : Vec3) :
    sampleBlocked meshes targetPandId origin dir
      = decide (specObstructed meshes origin dir targetPandId) := by
  by_cases h : specObstructed meshes origin dir targetPandId
  · rw [decide_eq_true h, (sampleBlocked_iff meshes targetPandId origin dir).mpr h]
  · rw [decide_eq_false h]
    exact Bool.eq_false_iff.mpr
      (fun hb => h ((sampleBlocked_iff meshes targetPandId origin dir).mp hb))

/-! ## Claims -/

/-- C1: every daylight sample of the sunlight analyzer (whole hours
between the sunrise and sunset hour of each representative date) is
skipped when its solar altitude is at most 0; otherwise the ray cast from
the fixed point above the target-roof centroid toward the sun counts the
hour obstructed exactly when it meets some building volume other than the
target (ground plane excluded) before the far bound, and sunlit
otherwise. -/
theorem sunlight_sample_obstruction_rule (env : SunlightEnv)
    (meshes : List MeshObj) (buildings : List BuildingBlock)
    (target : BuildingBlock) (tid : String) (month : ℕ) :
    monthSunlitHours env meshes tid (roofCenter buildings target) month
      = ((hourRange env.sm month).filter (fun h =>
          decide (0 < (env.sm.position month h).altitude) &&
          decide (¬ specObstructed meshes (roofCenter buildings target)
            (env.sunDir (env.sm.position month h)) tid))).length := by
  rw [monthSunlitHours, sunlit_foldl_count, Nat.zero_add]
  have hfun : (fun h => decide (0 < (env.sm.position month h).altitude) &&
        !sampleBlocked meshes tid (roofCenter buildings target)
          (env.sunDir (env.sm.position month h)))
      = (fun h => decide (0 < (env.sm.position month h).altitude) &&
          decide (¬ specObstructed meshes (roofCenter buildings target)
            (env.sunDir (env.sm.position month h)) tid)) := by
    funext h
    rw [sampleBlocked_eq_decide, decide_not]
  rw [hfun]

/-- C5 counterexample: with a solar model whose sunrise hour is 8 but
whose 8-hour sample sits below the horizon (true sunrise after 8:30),
a fully unobstructed target (no meshes at all) collects 8 sunlit hours
on the grid, not sunset minus sunrise plus 1 = 9. -/
theorem zero_obstruction_counterexample :
    monthSunlitHours cexEnv [] "T" ⟨0, 0, 0⟩ 0 = 8 ∧
    cexEnv.sm.sunsetHour 0 - cexEnv.sm.sunriseHour 0 + 1 = 9 := by
  constructor
  · decide
  · decide

/-- C5 amended: for a target with zero obstruction the monthly sunlit
count equals the number of sampled hours on the grid, namely sunset hour
minus sunrise hour plus 1, provided every sample between the bounds has
positive altitude; a bound-hour sample below the horizon is skipped and
not counted. -/
theorem zero_obstruction_amended (env : SunlightEnv) (meshes : List MeshObj)
    (tid : String) (origin : Vec3) (month : ℕ)
    (hnb : ∀ h ∈ hourRange env.sm month,
      sampleBlocked meshes tid origin (env.sunDir (env.sm.position month h)) = false)
    (hpos : ∀ h ∈ hourRange env.sm month, 0 < (env.sm.position month h).altitude)
    (hle : env.sm.sunriseHour month ≤ env.sm.sunsetHour month) :
    monthSunlitHours env meshes tid origin month
      = env.sm.sunsetHour month - env.sm.sunriseHour month + 1 := by
  rw [monthSunlitHours, sunlit_foldl_count, Nat.zero_add]
  rw [List.filter_eq_self.mpr]
  · rw [hourRange, List.length_range']
    omega
  · intro h hm
    rw [hnb h hm]
    simp [hpos h hm]

/-- C5 witness: a model with all samples above the horizon between hours
8 and 16 and no meshes yields 16 - 8 + 1 = 9 sunlit hours. -/
theorem zero_obstruction_amended_witness :
    (∀ h ∈ hourRange upEnv.sm 0,
      sampleBlocked [] "T" ⟨0, 0, 0⟩ (upEnv.sunDir (upEnv.sm.position 0 h)) = false) ∧
    (∀ h ∈ hourRange upEnv.sm 0, 0 < (upEnv.sm.position 0 h).altitude) ∧
    upEnv.sm.sunriseHour 0 ≤ upEnv.sm.sunsetHour 0 ∧
    monthSunlitHours upEnv [] "T" ⟨0, 0, 0⟩ 0
      = upEnv.sm.sunsetHour 0 - upEnv.sm.sunriseHour 0 + 1 :=
  ⟨by decide, by decide, by decide,
    zero_obstruction_amended upEnv [] "T" ⟨0, 0, 0⟩ 0
      (by decide) (by decide) (by decide)⟩

/-- C10: the scene-building loop creates no volume for a building whose
footprint has fewer than 3 points and still creates, in order, one volume
for every other building; the loop is a total function, so no exception
is raised. -/
theorem footprint_guard_skips (minG : ℚ) (bs : List BuildingBlock) :
    extrudeLoop minG bs
      = (bs.filter (fun b => decide (3 ≤ b.footprint.length))).map (mkVolume minG) := by
  induction bs with
  | nil => rfl
  | cons b rest ih =>
    by_cases h : b.footprint.length < 3
    · rw [extrudeLoop, if_pos h, List.filter_cons]
      have hd : decide (3 ≤ b.footprint.length) = false := by
        simp [not_le.mpr h]
      rw [hd]
      simpa using ih
    · rw [extrudeLoop, if_neg h, List.filter_cons]
      have hd : decide (3 ≤ b.footprint.length) = true := by
        simp [not_lt.mp h]
      rw [hd]
      simp only [if_pos, List.map_cons]
      rw [ih]

/-- When the target id matches a listed building with a valid footprint,
the builder yields exactly that single volume, based at height 0. -/
theorem buildVolumes_target_single (buildings : List BuildingBlock) (tid : String)
    (t : BuildingBlock)
    (hfind : buildings.find? (fun b => decide (b.pand_id = tid)) = some t)
    (hfp : 3 ≤ t.footprint.length) :
    buildVolumes buildings (some tid)
      = [{ pandId := t.pand_id, baseY := 0, depth := t.building_height,
           footprint := t.footprint, color := TARGET_COLOR }] := by
  have hrender : buildingsToRender buildings (some tid) = [t] := by
    simp [buildingsToRender, hfind]
  have hmin : minGround [t] = t.ground_height := by
    simp [minGround]
  rw [buildVolumes]
  rw [hrender, hmin]
  rw [extrudeLoop, if_neg (not_lt.mpr hfp), extrudeLoop]
  simp [mkVolume]

/-- C2 counterexample: for the two-building set exSet with target id A the
builder creates a single volume, not one per building, and the volume
base sits at 0, not at the ground height of its building (which is 2). -/
theorem scene_builder_counterexample :
    exSet.length = 2 ∧
    (buildVolumes exSet (some "A")).length = 1 ∧
    ∀ v ∈ buildVolumes exSet (some "A"), v.baseY ≠ bA.ground_height := by
  have hb := buildVolumes_target_single exSet "A" bA (by decide) (by decide)
  refine ⟨rfl, by rw [hb]; rfl, ?_⟩
  rw [hb]
  intro v hv
  rw [List.mem_singleton] at hv
  subst hv
  show (0 : ℚ) ≠ bA.ground_height
  norm_num [bA]

/-- C2 amended: the scene builder extrudes exactly one volume, for the
target building when its id matches a listed building (otherwise the
first listed building); the volume extrudes that footprint vertically
over the building height from base 0 (the ground height minus the
minimum ground height of the rendered set, which is the building itself),
and it carries the target color — no neighbor volume exists to be
distinguished from. -/
theorem scene_builder_amended (buildings : List BuildingBlock) (tid : String)
    (t : BuildingBlock)
    (hfind : buildings.find? (fun b => decide (b.pand_id = tid)) = some t)
    (hfp : 3 ≤ t.footprint.length) :
    buildVolumes buildings (some tid)
      = [{ pandId := t.pand_id, baseY := 0, depth := t.building_height,
           footprint := t.footprint, color := TARGET_COLOR }] :=
  buildVolumes_target_single buildings tid t hfind hfp

/-- C2 witness: the amended statement at the concrete two-building set. -/
theorem scene_builder_amended_witness :
    exSet.find? (fun b => decide (b.pand_id = "A")) = some bA ∧
    3 ≤ bA.footprint.length ∧
    buildVolumes exSet (some "A")
      = [{ pandId := bA.pand_id, baseY := 0, depth := bA.building_height,
           footprint := bA.footprint, color := TARGET_COLOR }] :=
  ⟨by decide, by decide, scene_builder_amended exSet "A" bA (by decide) (by decide)⟩

/-- C3: the displayed risk level is a function of the winter hours alone
(results agreeing on winter display the same level); winter below 2 shows
high, between 2 and 4 inclusive medium, above 4 low, with the boundary
values 1, 2, 4, 5, 6 behaving as the specification states. -/
theorem winter_only_risk (s t : SunlightResult) (hw : s.winter = t.winter) :
    displayedRisk s = displayedRisk t ∧
    (s.winter < 2 → displayedRisk s = RiskLevel.high) ∧
    (2 ≤ s.winter → s.winter ≤ 4 → displayedRisk s = RiskLevel.medium) ∧
    (4 < s.winter → displayedRisk s = RiskLevel.low) ∧
    getRiskLevel 1 = RiskLevel.high ∧ getRiskLevel 2 = RiskLevel.medium ∧
    getRiskLevel 4 = RiskLevel.medium ∧ getRiskLevel 5 = RiskLevel.low ∧
    getRiskLevel 6 = RiskLevel.low := by
  refine ⟨by simp [displayedRisk, hw], ?_, ?_, ?_,
    by decide, by decide, by decide, by decide, by decide⟩
  · intro h
    simp [displayedRisk, getRiskLevel, h]
  · intro h2 h4
    rw [displayedRisk, getRiskLevel, if_neg (not_lt.mpr h2), if_pos h4]
  · intro h4
    have h2 : ¬ s.winter < 2 := not_lt.mpr (le_of_lt (lt_trans (by norm_num) h4))
    rw [displayedRisk, getRiskLevel, if_neg h2, if_neg (not_le.mpr h4)]

/-- C3 witness: two results sharing winter hours 3 display the same
level. -/
theorem winter_only_risk_witness :
    exSunA.winter = exSunB.winter ∧ displayedRisk exSunA = displayedRisk exSunB :=
  ⟨by decide, (winter_only_risk exSunA exSunB (by decide)).1⟩

/-- C4: the snapshot-capture cycle saves camera position, light position
and light intensity before mutating the render state, and after the
capture loop the resulting state carries exactly the three saved
pre-capture values, for every renderer environment and starting state. -/
theorem snapshot_restores_state (env : SnapshotEnv) (s : SceneState) :
    (snapshotEffect env s).1.cameraPos = s.cameraPos ∧
    (snapshotEffect env s).1.lightPos = s.lightPos ∧
    (snapshotEffect env s).1.lightIntensity = s.lightIntensity :=
  ⟨rfl, rfl, rfl⟩

/-- C6: an asynchronous completion whose captured sequence number differs
from the current one leaves the whole app state untouched (all four
completion kinds), and in the A-then-B selection race the neighborhood
state ends at B's result whichever order the two fetches resolve in. -/
theorem race_guard_discards_stale (captured : ℕ) (n : N3D) (r : ℕ) (s : AppState)
    (hstale : s.currentRequestId ≠ captured) (s0 : AppState) (nA nB : N3D) :
    onNeighborhood3DSuccess captured n s = s ∧
    onNeighborhood3DFailure captured s = s ∧
    onRiskCardsSuccess captured r s = s ∧
    onRiskCardsFailure captured s = s ∧
    (onNeighborhood3DSuccess (capturedId s0) nA
        (onNeighborhood3DSuccess (capturedId (selectAddress s0)) nB
          (selectAddress (selectAddress s0)))).neighborhood3D = some nB ∧
    (onNeighborhood3DSuccess (capturedId (selectAddress s0)) nB
        (onNeighborhood3DSuccess (capturedId s0) nA
          (selectAddress (selectAddress s0)))).neighborhood3D = some nB := by
  refine ⟨?_, ?_, ?_, ?_, ?_, ?_⟩
  · rw [onNeighborhood3DSuccess, if_neg hstale]
  · rw [onNeighborhood3DFailure, if_neg hstale]
  · rw [onRiskCardsSuccess, if_neg hstale]
  · rw [onRiskCardsFailure, if_neg hstale]
  · simp [onNeighborhood3DSuccess, selectAddress, capturedId]
  · simp [onNeighborhood3DSuccess, selectAddress, capturedId]

/-- C6 witness: a stale completion whose captured number 7 differs from
the current number 1 is discarded. -/
theorem race_guard_witness :
    app1.currentRequestId ≠ 7 ∧ onNeighborhood3DSuccess 7 emptyN3D app1 = app1 :=
  ⟨by decide, (race_guard_discards_stale 7 emptyN3D 0 app1 (by decide)
    app1 emptyN3D badN3D).1⟩

/-- C8: whenever the computed solar altitude is at most 0, the sun
position effect sets the light intensity to exactly 0 and changes nothing
else — a normal state update, not an error. -/
theorem sun_below_horizon_zero_intensity (sunVec : SunPos → Vec3) (pos : SunPos)
    (s : SceneState) (halt : pos.altitude ≤ 0) :
    updateSunPosition sunVec pos s = { s with lightIntensity := 0 } := by
  rw [updateSunPosition, if_pos halt]

/-- C8 witness: altitude -1 zeroes the intensity on the concrete render
state. -/
theorem sun_below_horizon_zero_intensity_witness :
    (⟨1, -1⟩ : SunPos).altitude ≤ 0 ∧
    updateSunPosition constDir ⟨1, -1⟩ exScene = { exScene with lightIntensity := 0 } :=
  ⟨by decide, sun_below_horizon_zero_intensity constDir ⟨1, -1⟩ exScene (by decide)⟩

/-- C9 counterexample: a response whose target id T is absent from its
nonempty building list is not surfaced as unavailable (the flag stays
false after the matching completion), even though the analyzer silently
yields no result for it. -/
theorem preconditions_counterexample :
    badN3D.buildings ≠ [] ∧
    badN3D.target_pand_id = some "T" ∧
    (∀ b ∈ badN3D.buildings, b.pand_id ≠ "T") ∧
    (onNeighborhood3DSuccess 1 badN3D app1).sunlightUnavailable = false ∧
    computeSunlightResult upEnv [] badN3D.buildings badN3D.target_pand_id 2026 = none := by
  refine ⟨by decide, rfl, by decide, by decide, by decide⟩

/-- C9 amended: when the target id is unknown or the building list is
empty (or the fetch fails) the host surfaces the sunlight result as
unavailable; when the target id is known and the list nonempty but the
target building is absent, the analyzer returns no result and raises no
exception, without surfacing unavailability. -/
theorem preconditions_unavailable_amended (captured : ℕ) (n3d : N3D) (s : AppState)
    (hmatch : s.currentRequestId = captured)
    (hbad : n3d.buildings = [] ∨ n3d.target_pand_id = none)
    (env : SunlightEnv) (meshes : List MeshObj) (buildings : List BuildingBlock)
    (tid : String) (year : ℕ)
    (habs : buildings.find? (fun b => decide (b.pand_id = tid)) = none) :
    (onNeighborhood3DSuccess captured n3d s).sunlightUnavailable = true ∧
    (onNeighborhood3DFailure captured s).sunlightUnavailable = true ∧
    computeSunlightResult env meshes buildings (some tid) year = none ∧
    computeSunlightResult env meshes [] (some tid) year = none ∧
    computeSunlightResult env meshes buildings none year = none := by
  refine ⟨?_, ?_, ?_, rfl, rfl⟩
  · rw [onNeighborhood3DSuccess, if_pos hmatch]
    rcases hbad with hb | hb
    · simp [hb]
    · simp [hb]
  · rw [onNeighborhood3DFailure, if_pos hmatch]
  · cases hbe : buildings.isEmpty
    · simp [computeSunlightResult, hbe, habs]
    · simp [computeSunlightResult, hbe]

/-- C9 witness: the matching completion for an empty building list
surfaces unavailability, and the analyzer yields no result when the
target id finds no building. -/
theorem preconditions_unavailable_amended_witness :
    app1.currentRequestId = 1 ∧
    (emptyN3D.buildings = [] ∨ emptyN3D.target_pand_id = none) ∧
    [bX].find? (fun b => decide (b.pand_id = "T")) = none ∧
    (onNeighborhood3DSuccess 1 emptyN3D app1).sunlightUnavailable = true ∧
    computeSunlightResult upEnv [] [bX] (some "T") 2026 = none :=
  ⟨rfl, Or.inl rfl, by decide,
    (preconditions_unavailable_amended 1 emptyN3D app1 rfl (Or.inl rfl)
      upEnv [] [bX] "T" 2026 (by decide)).1,
    (preconditions_unavailable_amended 1 emptyN3D app1 rfl (Or.inl rfl)
      upEnv [] [bX] "T" 2026 (by decide)).2.2.1⟩

/-! ## Effect-scheduling lemmas for the idempotence claim -/

/-- After the buildings effect its dependency record matches the props. -/
theorem buildingsEffectStep_deps (p : ViewerProps) (s : ViewerState) :
    (buildingsEffectStep p s).buildingsEffectDeps
      = some (p.buildingsRef, p.targetPandId) := by
  unfold buildingsEffectStep
  split_ifs with h1 h2 <;> simp_all

/-- The buildings effect leaves the other dependency records and both run
counters alone. -/
theorem buildingsEffectStep_frame (p : ViewerProps) (s : ViewerState) :
    (buildingsEffectStep p s).sunlightEffectDeps = s.sunlightEffectDeps ∧
    (buildingsEffectStep p s).snapshotEffectDeps = s.snapshotEffectDeps ∧
    (buildingsEffectStep p s).analyzerRuns = s.analyzerRuns ∧
    (buildingsEffectStep p s).captureRuns = s.captureRuns := by
  unfold buildingsEffectStep
  split_ifs <;> simp

/-- The buildings effect does nothing when its dependencies are
unchanged. -/
theorem buildingsEffectStep_id (p : ViewerProps) (s : ViewerState)
    (h : s.buildingsEffectDeps = some (p.buildingsRef, p.targetPandId)) :
    buildingsEffectStep p s = s := by
  unfold buildingsEffectStep
  rw [if_pos h]

/-- A computeSunlight call never touches the dependency records, the
capture counter or the capture flag, and raises the analyzer counter by
at most one. -/
theorem computeSunlightCall_frame (p : ViewerProps) (s : ViewerState) :
    (computeSunlightCall p s).buildingsEffectDeps = s.buildingsEffectDeps ∧
    (computeSunlightCall p s).sunlightEffectDeps = s.sunlightEffectDeps ∧
    (computeSunlightCall p s).snapshotEffectDeps = s.snapshotEffectDeps ∧
    (computeSunlightCall p s).snapshotsCaptured = s.snapshotsCaptured ∧
    (computeSunlightCall p s).captureRuns = s.captureRuns ∧
    (computeSunlightCall p s).analyzerRuns ≤ s.analyzerRuns + 1 := by
  unfold computeSunlightCall
  split_ifs <;> simp

/-- After the sunlight trigger effect its dependency record matches the
props. -/
theorem sunlightTriggerStep_deps (p : ViewerProps) (s : ViewerState) :
    (sunlightTriggerStep p s).sunlightEffectDeps
      = some (p.buildingsRef, p.targetPandId, p.centerRef) := by
  unfold sunlightTriggerStep
  split_ifs with h1 h2 h3
  · exact h1
  · rfl
  · rfl
  · rw [(computeSunlightCall_frame p _).2.1]

/-- The sunlight trigger effect leaves the other dependency records, the
capture flag and the capture counter alone, and raises the analyzer
counter by at most one. -/
theorem sunlightTriggerStep_frame (p : ViewerProps) (s : ViewerState) :
    (sunlightTriggerStep p s).buildingsEffectDeps = s.buildingsEffectDeps ∧
    (sunlightTriggerStep p s).snapshotEffectDeps = s.snapshotEffectDeps ∧
    (sunlightTriggerStep p s).snapshotsCaptured = s.snapshotsCaptured ∧
    (sunlightTriggerStep p s).captureRuns = s.captureRuns ∧
    (sunlightTriggerStep p s).analyzerRuns ≤ s.analyzerRuns + 1 := by
  unfold sunlightTriggerStep
  split_ifs with h1 h2 h3
  · exact ⟨rfl, rfl, rfl, rfl, Nat.le_succ _⟩
  · exact ⟨rfl, rfl, rfl, rfl, Nat.le_succ _⟩
  · exact ⟨rfl, rfl, rfl, rfl, Nat.le_succ _⟩
  · obtain ⟨f1, f2, f3, f4, f5, f6⟩ := computeSunlightCall_frame p
      { s with sunlightEffectDeps := some (p.buildingsRef, p.targetPandId, p.centerRef) }
    exact ⟨f1, f3, f4, f5, f6⟩

/-- The sunlight trigger effect does nothing when its dependencies are
unchanged. -/
theorem sunlightTriggerStep_id (p : ViewerProps) (s : ViewerState)
    (h : s.sunlightEffectDeps = some (p.buildingsRef, p.targetPandId, p.centerRef)) :
    sunlightTriggerStep p s = s := by
  unfold sunlightTriggerStep
  rw [if_pos h]

/-- After the snapshot effect its dependency record matches the props. -/
theorem snapshotCaptureStep_deps (p : ViewerProps) (s : ViewerState) :
    (snapshotCaptureStep p s).snapshotEffectDeps
      = some (p.buildingsRef, p.centerRef) := by
  unfold snapshotCaptureStep
  by_cases h1 : s.snapshotEffectDeps = some (p.buildingsRef, p.centerRef)
  · rw [if_pos h1]
    exact h1
  · rw [if_neg h1]
    by_cases h2 : p.buildings = [] ∨ s.snapshotsCaptured = true
    · simp [h2]
    · simp [h2]

/-- The snapshot effect leaves the other dependency records, the analyzer
flag and the analyzer counter alone, and raises the capture counter by at
most one. -/
theorem snapshotCaptureStep_frame (p : ViewerProps) (s : ViewerState) :
    (snapshotCaptureStep p s).buildingsEffectDeps = s.buildingsEffectDeps ∧
    (snapshotCaptureStep p s).sunlightEffectDeps = s.sunlightEffectDeps ∧
    (snapshotCaptureStep p s).sunlightComputed = s.sunlightComputed ∧
    (snapshotCaptureStep p s).analyzerRuns = s.analyzerRuns ∧
    (snapshotCaptureStep p s).captureRuns ≤ s.captureRuns + 1 := by
  unfold snapshotCaptureStep
  by_cases h1 : s.snapshotEffectDeps = some (p.buildingsRef, p.centerRef)
  · rw [if_pos h1]
    exact ⟨rfl, rfl, rfl, rfl, Nat.le_succ _⟩
  · rw [if_neg h1]
    by_cases h2 : p.buildings = [] ∨ s.snapshotsCaptured = true
    · refine ⟨?_, ?_, ?_, ?_, ?_⟩ <;> simp [h2]
    · refine ⟨?_, ?_, ?_, ?_, ?_⟩ <;> simp [h2]

/-- The snapshot effect does nothing when its dependencies are
unchanged. -/
theorem snapshotCaptureStep_id (p : ViewerProps) (s : ViewerState)
    (h : s.snapshotEffectDeps = some (p.buildingsRef, p.centerRef)) :
    snapshotCaptureStep p s = s := by
  unfold snapshotCaptureStep
  rw [if_pos h]

/-- A second committed render with the same props changes nothing. -/
theorem renderStep_idem (p : ViewerProps) (s : ViewerState) :
    renderStep p (renderStep p s) = renderStep p s := by
  have hb : (renderStep p s).buildingsEffectDeps
      = some (p.buildingsRef, p.targetPandId) := by
    rw [renderStep, (snapshotCaptureStep_frame p _).1,
      (sunlightTriggerStep_frame p _).1, buildingsEffectStep_deps]
  have hs : (renderStep p s).sunlightEffectDeps
      = some (p.buildingsRef, p.targetPandId, p.centerRef) := by
    rw [renderStep, (snapshotCaptureStep_frame p _).2.1, sunlightTriggerStep_deps]
  have hc : (renderStep p s).snapshotEffectDeps
      = some (p.buildingsRef, p.centerRef) := by
    rw [renderStep, snapshotCaptureStep_deps]
  show snapshotCaptureStep p (sunlightTriggerStep p
    (buildingsEffectStep p (renderStep p s))) = renderStep p s
  rw [buildingsEffectStep_id p _ hb, sunlightTriggerStep_id p _ hs,
    snapshotCaptureStep_id p _ hc]

/-- One committed render raises each run counter by at most one. -/
theorem renderStep_runs (p : ViewerProps) (s : ViewerState) :
    (renderStep p s).analyzerRuns ≤ s.analyzerRuns + 1 ∧
    (renderStep p s).captureRuns ≤ s.captureRuns + 1 := by
  constructor
  · rw [renderStep, (snapshotCaptureStep_frame p _).2.2.2.1]
    calc (sunlightTriggerStep p (buildingsEffectStep p s)).analyzerRuns
        ≤ (buildingsEffectStep p s).analyzerRuns + 1 :=
          (sunlightTriggerStep_frame p _).2.2.2.2
      _ = s.analyzerRuns + 1 := by rw [(buildingsEffectStep_frame p s).2.2.1]
  · have h1 := (snapshotCaptureStep_frame p
      (sunlightTriggerStep p (buildingsEffectStep p s))).2.2.2.2
    rw [renderStep]
    calc (snapshotCaptureStep p (sunlightTriggerStep p
          (buildingsEffectStep p s))).captureRuns
        ≤ (sunlightTriggerStep p (buildingsEffectStep p s)).captureRuns + 1 := h1
      _ = (buildingsEffectStep p s).captureRuns + 1 := by
          rw [(sunlightTriggerStep_frame p _).2.2.2.1]
      _ = s.captureRuns + 1 := by rw [(buildingsEffectStep_frame p s).2.2.2]

/-- Any positive number of committed renders with the same props equals a
single one. -/
theorem renderStep_iterate (p : ViewerProps) :
    ∀ (n : ℕ) (s : ViewerState), (renderStep p)^[n + 1] s = renderStep p s
  | 0, _ => rfl
  | n + 1, s => by
    rw [Function.iterate_succ_apply, renderStep_iterate p n (renderStep p s),
      renderStep_idem]

/-- C7: the analyzer and the capturer each run at most once per massing
arrival — a single committed render raises each run counter by at most
one, and every further render with the same props (an unchanged building
set or an unrelated re-render) is a no-op, re-triggering neither. -/
theorem analyzer_capturer_idempotent (p : ViewerProps) (s : ViewerState) (n : ℕ) :
    (renderStep p)^[n + 1] s = renderStep p s ∧
    (renderStep p s).analyzerRuns ≤ s.analyzerRuns + 1 ∧
    (renderStep p s).captureRuns ≤ s.captureRuns + 1 :=
  ⟨renderStep_iterate p n s, (renderStep_runs p s).1, (renderStep_runs p s).2⟩

end BuurtCheck
